import Mathlib

/-!
Shallow embedding of `job_mailer.py`: the deduplication / persistence layer
(`load_sent_jobs`, `save_sent_jobs`), the aggregator (`fetch_all_jobs` over
`fetch_jobs`), the enrichment payload construction (`enrich_with_llm`), the
notification step (`send_email`) and the `__main__` workflow.

Modelling conventions:
* JSON values are the inductive `JVal`; JSON numbers are modelled as integers
  (no claim involves numeric content).
* The store file is `FileContent`: absent, present but not parseable as JSON,
  or present with a parsed JSON value.
* Python exceptions are `Except` errors (`PyErr`): an `Except.error` result of
  a modelled function is an uncaught Python exception at that point.
* Python `set(...)` is modelled as a duplicate-free `List PyScalar`
  (hashable JSON scalars); constructing a set from a non-iterable value or
  from an iterable containing an unhashable element raises `TypeError`.
* The network environment of a run is the list of per-query responses, one
  `QueryResponse` per query of the fixed query list, in query order.
-/

namespace JobMailer

/-- JSON values, as produced by `json.load` / consumed by `json.dump`. -/
inductive JVal : Type where
  | jnull : JVal
  | jbool : Bool → JVal
  | jnum : Int → JVal
  | jstr : String → JVal
  | jarr : List JVal → JVal
  | jobj : List (String × JVal) → JVal

/-- Python exceptions that the modelled code can raise. -/
inductive PyErr : Type where
  | typeError : PyErr
  | attrError : PyErr
  | valueError : PyErr
  | exn : PyErr
deriving DecidableEq

/-- Hashable JSON scalars: the possible elements of a Python set built from
JSON-derived data. Lists and dicts are unhashable and cannot be elements. -/
inductive PyScalar : Type where
  | pnull : PyScalar
  | pbool : Bool → PyScalar
  | pnum : Int → PyScalar
  | pstr : String → PyScalar
deriving DecidableEq

/-- The hashable (scalar) view of a JSON value, `none` for lists and dicts. -/
def toScalar : JVal → Option PyScalar
  | .jnull => some .pnull
  | .jbool b => some (.pbool b)
  | .jnum n => some (.pnum n)
  | .jstr s => some (.pstr s)
  | .jarr _ => none
  | .jobj _ => none

/-- Re-serialization of a scalar back to a JSON value (`json.dump`). -/
def scalarToJVal : PyScalar → JVal
  | .pnull => .jnull
  | .pbool b => .jbool b
  | .pnum n => .jnum n
  | .pstr s => .jstr s

/-- Python iteration over a JSON-derived value: lists yield their elements,
strings their characters (as one-character strings), dicts their keys;
`None`, booleans and numbers are not iterable (`none`). -/
def pyIter : JVal → Option (List JVal)
  | .jarr xs => some xs
  | .jstr s => some (s.toList.map (fun c => .jstr (String.mk [c])))
  | .jobj kvs => some (kvs.map (fun kv => .jstr kv.1))
  | _ => none

/-- Python `set(...)` applied to an already-iterated list of values:
keeps the first occurrence of each element, raises (`none`) on an
unhashable element. -/
def pySetOfList : List PyScalar → List PyScalar
  | [] => []
  | x :: xs =>
    let rest := pySetOfList xs
    if x ∈ rest then rest else x :: rest

/-- The hashable views of a list of values, `none` as soon as one element is
unhashable (the `TypeError` raised by `set(...)` on that element). -/
def toScalars : List JVal → Option (List PyScalar)
  | [] => some []
  | v :: vs =>
    match toScalar v with
    | none => none
    | some x =>
      match toScalars vs with
      | none => none
      | some xs => some (x :: xs)

/-- Python `set(v)` for a JSON-derived value `v`: iterate, hash, deduplicate.
`none` models a `TypeError` (non-iterable `v`, or an unhashable element). -/
def pySet (v : JVal) : Option (List PyScalar) :=
  (pyIter v).bind (fun xs => (toScalars xs).map pySetOfList)

/-- State of the `sent_jobs.json` store file. -/
inductive FileContent : Type where
  | absent : FileContent
  | invalid : FileContent
  | parsed : JVal → FileContent

/-- `load_sent_jobs()`: if the file exists, `set(json.load(f))` with
`json.JSONDecodeError` / `ValueError` caught (empty set); a missing file is
the empty set. A `TypeError` from `set(...)` is not caught and propagates. -/
def load_sent_jobs : FileContent → Except PyErr (List PyScalar)
  | .absent => .ok []
  | .invalid => .ok []
  | .parsed v =>
    match pySet v with
    | some s => .ok s
    | none => .error .typeError

/-- Python set union `a.union(b)` on the list model of sets. -/
def setUnion (a b : List PyScalar) : List PyScalar :=
  a ++ b.filter (fun x => decide (x ∉ a))

/-- `save_sent_jobs(job_ids)`: `existing = load_sent_jobs()`, then
`updated = existing.union(set(job_ids))`, then `json.dump(list(updated), f)`.
Returns the new file content; errors from `load_sent_jobs` or from
`set(job_ids)` propagate. -/
def save_sent_jobs (fc : FileContent) (job_ids : List JVal) :
    Except PyErr FileContent := do
  let existing ← load_sent_jobs fc
  match toScalars job_ids with
  | none => .error .typeError
  | some newIds =>
    .ok (.parsed (.jarr ((setUnion existing (pySetOfList newIds)).map scalarToJVal)))

/-- Python `dict.get(k)` on a JSON-object entry list (keys of a dict produced
by `json.load` are distinct; lookup finds the entry for `k`, if any). -/
def pyDictGet (kvs : List (String × JVal)) (k : String) : Option JVal :=
  match kvs with
  | [] => none
  | (k0, v) :: rest => if k0 = k then some v else pyDictGet rest k

mutual
/-- Python `repr()` of a JSON-derived value, used when a list or dict is
rendered inside an f-string. String repr is modelled without escape
handling (no claim exercises it). -/
def pyRepr : JVal → String
  | .jnull => "None"
  | .jbool true => "True"
  | .jbool false => "False"
  | .jnum n => toString n
  | .jstr s => "'" ++ s ++ "'"
  | .jarr xs => "[" ++ String.intercalate ", " (pyReprList xs) ++ "]"
  | .jobj kvs => "\x7b" ++ String.intercalate ", " (pyReprObj kvs) ++ "\x7d"

/-- `repr` of each element of a JSON array. -/
def pyReprList : List JVal → List String
  | [] => []
  | v :: vs => pyRepr v :: pyReprList vs

/-- `repr` of each `key: value` entry of a JSON object. -/
def pyReprObj : List (String × JVal) → List String
  | [] => []
  | (k, v) :: kvs => ("'" ++ k ++ "': " ++ pyRepr v) :: pyReprObj kvs
end

/-- Python `str()` as used by f-string interpolation: a string renders as
itself, anything else as its repr. -/
def pyStr : JVal → String
  | .jstr s => s
  | .jnull => pyRepr .jnull
  | .jbool b => pyRepr (.jbool b)
  | .jnum n => pyRepr (.jnum n)
  | .jarr xs => pyRepr (.jarr xs)
  | .jobj kvs => pyRepr (.jobj kvs)

/-- f-string rendering of a `dict.get` result: a missing key gives `None`,
which renders as the string `"None"`. -/
def pyStrOpt : Option JVal → String
  | none => "None"
  | some v => pyStr v

/-- The job identifier computed at lines 99 and 203 of `job_mailer.py`:
`job.get("job_id", f"{job.get('title')}-{job.get('company_name')}")`.
The default is used only when the `job_id` key is absent from the record. -/
def computeJobId (kvs : List (String × JVal)) : JVal :=
  match pyDictGet kvs "job_id" with
  | some v => v
  | none =>
    .jstr (pyStrOpt (pyDictGet kvs "title") ++ "-" ++ pyStrOpt (pyDictGet kvs "company_name"))

/-- Outcome of one query's HTTP round trip: `httpError` models an exception
raised by `requests.get` or by `response.json()`; `jsonValue v` models a
response whose body parsed to the JSON value `v`. -/
inductive QueryResponse : Type where
  | httpError : QueryResponse
  | jsonValue : JVal → QueryResponse

/-- The fixed query list of `fetch_all_jobs`. -/
def queries : List String :=
  ["Full Stack Developer 3 years experience Hyderabad",
   "React Developer 3 years experience Remote India",
   "Java Spring Boot Developer 3 years experience Hyderabad",
   "Python Backend Developer 3 years experience Remote India",
   "FastAPI Developer 3 years experience Remote India",
   "Django Developer 3 years experience Hyderabad",
   "Software Engineer 3 years experience Hyderabad"]

/-- `fetch_jobs(query)` given the query's response:
`data = response.json(); jobs = data.get("jobs_results", [])`.
An exception during the request or JSON parsing propagates; `.get` on a
non-dict body raises `AttributeError`. -/
def fetch_jobs : QueryResponse → Except PyErr JVal
  | .httpError => .error .exn
  | .jsonValue v =>
    match v with
    | .jobj kvs => .ok ((pyDictGet kvs "jobs_results").getD (.jarr []))
    | _ => .error .attrError

/-- Python `for _ in v`: iterating a non-iterable raises `TypeError`. -/
def pyIterE (v : JVal) : Except PyErr (List JVal) :=
  match pyIter v with
  | some xs => .ok xs
  | none => .error .typeError

/-- The inner loop of `fetch_all_jobs`: for each fetched record, compute its
identifier and keep the record only if the identifier is not in the seen set.
A non-dict record raises `AttributeError` at `job.get`; an unhashable
identifier raises `TypeError` at the `in` test. -/
def filterNew (seen : List PyScalar) : List JVal → Except PyErr (List JVal)
  | [] => .ok []
  | job :: rest =>
    match job with
    | .jobj kvs =>
      match toScalar (computeJobId kvs) with
      | some sc => do
        let tail ← filterNew seen rest
        if sc ∈ seen then .ok tail else .ok (job :: tail)
      | none => .error .typeError
    | _ => .error .attrError

/-- The outer loop of `fetch_all_jobs`: process the queries' responses in
order, appending each query's new records. -/
def fetchLoop (seen : List PyScalar) : List QueryResponse → Except PyErr (List JVal)
  | [] => .ok []
  | r :: rest => do
    let fetched ← fetch_jobs r
    let elems ← pyIterE fetched
    let news ← filterNew seen elems
    let tail ← fetchLoop seen rest
    .ok (news ++ tail)

/-- `fetch_all_jobs()` given the per-query responses `rs`:
load the seen set, then run every query and keep only unseen records. -/
def fetch_all_jobs (fc : FileContent) (rs : List QueryResponse) :
    Except PyErr (List JVal) := do
  let seen ← load_sent_jobs fc
  fetchLoop seen rs

mutual
/-- `json.dumps` of a JSON value (whitespace as produced with default
separators; string escaping not modelled, no claim exercises it). -/
def jsonDumps : JVal → String
  | .jnull => "null"
  | .jbool true => "true"
  | .jbool false => "false"
  | .jnum n => toString n
  | .jstr s => "\"" ++ s ++ "\""
  | .jarr xs => "[" ++ String.intercalate ", " (jsonDumpsList xs) ++ "]"
  | .jobj kvs => "\x7b" ++ String.intercalate ", " (jsonDumpsObj kvs) ++ "\x7d"

/-- `json.dumps` of each element of an array. -/
def jsonDumpsList : List JVal → List String
  | [] => []
  | v :: vs => jsonDumps v :: jsonDumpsList vs

/-- `json.dumps` of each `"key": value` entry of an object. -/
def jsonDumpsObj : List (String × JVal) → List String
  | [] => []
  | (k, v) :: kvs => ("\"" ++ k ++ "\": " ++ jsonDumps v) :: jsonDumpsObj kvs
end

/-- Line 147 of `job_mailer.py`: `jobs_sample = jobs[:50]`. -/
def jobs_sample (jobs : List JVal) : List JVal :=
  jobs.take 50

/-- Line 148: `jobs_json = json.dumps(jobs_sample, ensure_ascii=False)`,
kept as the JSON value whose serialization is sent. -/
def jobs_json (jobs : List JVal) : JVal :=
  .jarr (jobs_sample jobs)

/-- The prompt string handed to the LLM chain: the external base prompt,
the resume blob, and the serialized job sample, per the template at
line 135 of `job_mailer.py`. -/
def promptText (basePrompt resumes : String) (jobs : List JVal) : String :=
  basePrompt ++ "\n\nMY RESUMES:\n" ++ resumes ++
    "\n\nHere are the raw job listings:\n" ++ jsonDumps (jobs_json jobs)

/-- `enrich_with_llm(jobs)` given the environment: raises `ValueError` when
`GEMINI_API_KEY` is unset; opening a missing `job_prompt.txt` raises; the
chain invocation either errors (propagates) or returns the model's text. -/
def enrich_with_llm (geminiKey : Option String) (promptFile : Option String)
    (resumes : String) (llm : String → Except Unit String) (jobs : List JVal) :
    Except PyErr String :=
  match geminiKey with
  | none => .error .valueError
  | some _ =>
    match promptFile with
    | none => .error .exn
    | some basePrompt =>
      match llm (promptText basePrompt resumes jobs) with
      | .error _ => .error .exn
      | .ok result => .ok result

/-- `send_email(html_body)`: the SendGrid call either succeeds (`True`) or
raises, in which case the exception is caught and `False` is returned. -/
def send_email (sendOutcome : Except Unit Unit) (_html : String) : Bool :=
  match sendOutcome with
  | .ok _ => true
  | .error _ => false

/-- Observable steps of a run, recorded by the modelled `__main__` workflow. -/
inductive Event : Type where
  | enriched : Event
  | emailed : Event
  | saved : Event
deriving DecidableEq

/-- Lines 201-204: recompute the identifier of each notified record.
`job.get` on a non-dict record raises `AttributeError`. -/
def newIdsOf : List JVal → Except PyErr (List JVal)
  | [] => .ok []
  | job :: rest =>
    match job with
    | .jobj kvs => do
      let tail ← newIdsOf rest
      .ok (computeJobId kvs :: tail)
    | _ => .error .attrError

/-- The external environment of one run: the store file, each query's
response, the configured credentials and input files, and the outcomes of
the LLM and email calls. -/
structure World : Type where
  store : FileContent
  responses : List QueryResponse
  geminiKey : Option String
  promptFile : Option String
  resumes : String
  llm : String → Except Unit String
  sendOutcome : Except Unit Unit

/-- The `__main__` workflow (lines 185-206): fetch and filter, exit if no new
jobs, enrich, send, and persist the identifiers only when the send reported
success. Returns the final environment (with the possibly rewritten store)
and the steps that ran. -/
def main (w : World) : Except PyErr (World × List Event) := do
  let jobs ← fetch_all_jobs w.store w.responses
  if jobs.length = 0 then
    .ok (w, [])
  else do
    let html ← enrich_with_llm w.geminiKey w.promptFile w.resumes w.llm jobs
    let success := send_email w.sendOutcome html
    if success then do
      let ids ← newIdsOf jobs
      let store' ← save_sent_jobs w.store ids
      .ok ({ w with store := store' }, [.enriched, .emailed, .saved])
    else
      .ok (w, [.enriched, .emailed])

/-! ### Helper lemmas -/

theorem toScalar_scalarToJVal (x : PyScalar) : toScalar (scalarToJVal x) = some x := by
  cases x <;> rfl

theorem toScalars_map (l : List PyScalar) :
    toScalars (l.map scalarToJVal) = some l := by
  induction l with
  | nil => rfl
  | cons x xs ih =>
    simp [toScalars, toScalar_scalarToJVal, ih]

theorem mem_pySetOfList {x : PyScalar} {l : List PyScalar} :
    x ∈ pySetOfList l ↔ x ∈ l := by
  induction l with
  | nil => simp [pySetOfList]
  | cons y ys ih =>
    by_cases hy : y ∈ pySetOfList ys
    · simp only [pySetOfList, hy, if_pos, List.mem_cons]
      constructor
      · intro h; exact Or.inr (ih.mp h)
      · rintro (rfl | h)
        · exact hy
        · exact ih.mpr h
    · simp only [pySetOfList, hy, if_neg, not_false_iff, List.mem_cons]
      rw [ih]

theorem mem_setUnion {x : PyScalar} {a b : List PyScalar} :
    x ∈ setUnion a b ↔ x ∈ a ∨ x ∈ b := by
  simp only [setUnion, List.mem_append, List.mem_filter, decide_eq_true_eq]
  by_cases hx : x ∈ a <;> tauto

theorem pySet_jarr_map (l : List PyScalar) :
    pySet (.jarr (l.map scalarToJVal)) = some (pySetOfList l) := by
  simp [pySet, pyIter, toScalars_map]

theorem load_parsed_map (l : List PyScalar) :
    load_sent_jobs (.parsed (.jarr (l.map scalarToJVal))) = .ok (pySetOfList l) := by
  simp [load_sent_jobs, pySet_jarr_map]

theorem save_sent_jobs_ok {fc : FileContent} {S : List PyScalar} (B : List String)
    (h : load_sent_jobs fc = .ok S) :
    save_sent_jobs fc (B.map JVal.jstr) =
      .ok (.parsed (.jarr
        ((setUnion S (pySetOfList (B.map PyScalar.pstr))).map scalarToJVal))) := by
  have hB : B.map JVal.jstr = (B.map PyScalar.pstr).map scalarToJVal := by
    simp only [List.map_map]
    exact List.map_congr_left (fun a _ => rfl)
  rw [save_sent_jobs, h, hB, toScalars_map]
  rfl

theorem save_load_core {fc : FileContent} {S : List PyScalar} (B : List String)
    (h : load_sent_jobs fc = .ok S) :
    ∃ fc' S', save_sent_jobs fc (B.map JVal.jstr) = .ok fc' ∧
      load_sent_jobs fc' = .ok S' ∧
      ∀ x, x ∈ S' ↔ x ∈ S ∨ x ∈ B.map PyScalar.pstr := by
  refine ⟨_, _, save_sent_jobs_ok B h, load_parsed_map _, ?_⟩
  intro x
  rw [mem_pySetOfList, mem_setUnion, mem_pySetOfList]

/-! ### Claims -/

/-- C1: for every previously persisted seen-set `S` and every batch `B` of
job identifiers, `save_sent_jobs B` succeeds and the persisted set afterwards
is exactly `S ∪ B`: no previously-seen identifier is lost and every
identifier of `B` is present. -/
theorem save_persists_union {fc : FileContent} {S : List PyScalar}
    (B : List String) (h : load_sent_jobs fc = .ok S) :
    ∃ fc' S', save_sent_jobs fc (B.map JVal.jstr) = .ok fc' ∧
      load_sent_jobs fc' = .ok S' ∧
      ∀ x, x ∈ S' ↔ x ∈ S ∨ x ∈ B.map PyScalar.pstr :=
  save_load_core B h

/-- C1 witness: persisted `["a","b"]`, batch `["b","c"]`; the persisted set
afterwards is `{"a","b","c"}`. -/
theorem save_persists_union_witness :
    load_sent_jobs (.parsed (.jarr [.jstr "a", .jstr "b"])) =
      .ok [.pstr "a", .pstr "b"] ∧
    save_sent_jobs (.parsed (.jarr [.jstr "a", .jstr "b"]))
        (["b", "c"].map JVal.jstr) =
      .ok (.parsed (.jarr [.jstr "a", .jstr "b", .jstr "c"])) ∧
    (∃ fc' S',
      save_sent_jobs (.parsed (.jarr [.jstr "a", .jstr "b"]))
          (["b", "c"].map JVal.jstr) = .ok fc' ∧
      load_sent_jobs fc' = .ok S' ∧
      ∀ x, x ∈ S' ↔ x ∈ [PyScalar.pstr "a", .pstr "b"] ∨
        x ∈ ["b", "c"].map PyScalar.pstr) :=
  ⟨rfl, rfl,
    @save_persists_union (.parsed (.jarr [.jstr "a", .jstr "b"]))
      [.pstr "a", .pstr "b"] ["b", "c"] rfl⟩

/-- C9: serialize-then-parse round trip — for every persisted state holding
set `S` and every batch `B` of identifier strings, running `save_sent_jobs B`
and then `load_sent_jobs` yields exactly the set `S ∪ B`: the
set-to-JSON-list serialization followed by list-to-set deserialization loses
no element and adds none. -/
theorem save_load_roundtrip {fc fc' : FileContent} {S : List PyScalar}
    (B : List String) (h : load_sent_jobs fc = .ok S)
    (hs : save_sent_jobs fc (B.map JVal.jstr) = .ok fc') :
    ∃ S', load_sent_jobs fc' = .ok S' ∧
      S'.toFinset = S.toFinset ∪ (B.map PyScalar.pstr).toFinset := by
  obtain ⟨fc'', S', hsave, hload, hmem⟩ := save_load_core B h
  rw [hsave] at hs
  cases hs
  refine ⟨S', hload, ?_⟩
  ext x
  simp only [List.mem_toFinset, Finset.mem_union]
  exact hmem x

/-- C9 witness: persisted `["a","b"]`, batch `["b","c"]`; reloading gives the
three-element set `{"a","b","c"}`. -/
theorem save_load_roundtrip_witness :
    load_sent_jobs (.parsed (.jarr [.jstr "a", .jstr "b"])) =
      .ok [.pstr "a", .pstr "b"] ∧
    save_sent_jobs (.parsed (.jarr [.jstr "a", .jstr "b"]))
        (["b", "c"].map JVal.jstr) =
      .ok (.parsed (.jarr [.jstr "a", .jstr "b", .jstr "c"])) ∧
    (∃ S', load_sent_jobs (.parsed (.jarr [.jstr "a", .jstr "b", .jstr "c"])) =
        .ok S' ∧
      S'.toFinset = ([PyScalar.pstr "a", .pstr "b"]).toFinset ∪
        (["b", "c"].map PyScalar.pstr).toFinset) :=
  ⟨rfl, rfl,
    @save_load_roundtrip (.parsed (.jarr [.jstr "a", .jstr "b"]))
      (.parsed (.jarr [.jstr "a", .jstr "b", .jstr "c"]))
      [.pstr "a", .pstr "b"] ["b", "c"] rfl rfl⟩

/-- C4 counterexample: the store file containing the bytes `5` is valid JSON,
so the `json.JSONDecodeError`/`ValueError` handler does not fire, and
`set(5)` raises an uncaught `TypeError`: `load_sent_jobs` does not return a
set for this content, contradicting the claim that it never raises. -/
theorem load_raises_on_json_number :
    load_sent_jobs (.parsed (.jnum 5)) = .error .typeError :=
  rfl

/-- C4 amended: a missing file or JSON-unparseable content yields the empty
set without an error, and content that is a JSON array of scalars yields the
set of its elements; but content that parses to a non-iterable JSON value
(`null`, a boolean or a number) makes `load_sent_jobs` raise an uncaught
`TypeError`. -/
theorem load_missing_or_invalid_empty :
    load_sent_jobs .absent = .ok [] ∧
    load_sent_jobs .invalid = .ok [] ∧
    (∀ xs : List PyScalar,
      load_sent_jobs (.parsed (.jarr (xs.map scalarToJVal))) =
        .ok (pySetOfList xs)) ∧
    (∀ v, pyIter v = none →
      load_sent_jobs (.parsed v) = .error .typeError) := by
  refine ⟨rfl, rfl, load_parsed_map, ?_⟩
  intro v hv
  simp [load_sent_jobs, pySet, hv]

/-- C4 amended witness: the empty-set cases evaluated, and the `TypeError`
case instantiated at the JSON number `5`. -/
theorem load_missing_or_invalid_empty_witness :
    pyIter (JVal.jnum 5) = none ∧
    load_sent_jobs (.parsed (.jnum 5)) = .error .typeError ∧
    load_sent_jobs (.parsed (.jarr [.jstr "a"])) = .ok [.pstr "a"] :=
  ⟨rfl, load_missing_or_invalid_empty.2.2.2 (JVal.jnum 5) rfl,
    load_missing_or_invalid_empty.2.2.1 [PyScalar.pstr "a"]⟩

/-- C6: the computed job identifier is the provider-supplied `job_id` value
whenever the record has that key; otherwise, for a record whose `title` and
`company_name` fields are the strings `t` and `c`, it is exactly the string
`t ++ "-" ++ c`. -/
theorem job_identifier_spec (kvs : List (String × JVal)) :
    (∀ v, pyDictGet kvs "job_id" = some v → computeJobId kvs = v) ∧
    (pyDictGet kvs "job_id" = none →
      ∀ t c, pyDictGet kvs "title" = some (.jstr t) →
        pyDictGet kvs "company_name" = some (.jstr c) →
        computeJobId kvs = .jstr (t ++ "-" ++ c)) := by
  constructor
  · intro v hv
    simp [computeJobId, hv]
  · intro hnone t c ht hc
    simp [computeJobId, hnone, ht, hc, pyStrOpt, pyStr]

/-- C6 witness: a record with `job_id` `"XYZ"` gets identifier `"XYZ"`; a
record with title `"Backend Engineer"` and company `"Acme"` and no `job_id`
gets identifier `"Backend Engineer-Acme"`. -/
theorem job_identifier_spec_witness :
    pyDictGet [("job_id", JVal.jstr "XYZ")] "job_id" = some (.jstr "XYZ") ∧
    computeJobId [("job_id", JVal.jstr "XYZ")] = .jstr "XYZ" ∧
    pyDictGet [("title", JVal.jstr "Backend Engineer"),
      ("company_name", JVal.jstr "Acme")] "job_id" = none ∧
    computeJobId [("title", JVal.jstr "Backend Engineer"),
      ("company_name", JVal.jstr "Acme")] = .jstr "Backend Engineer-Acme" :=
  ⟨rfl,
    (job_identifier_spec [("job_id", JVal.jstr "XYZ")]).1 (.jstr "XYZ") rfl,
    rfl,
    (job_identifier_spec [("title", JVal.jstr "Backend Engineer"),
        ("company_name", JVal.jstr "Acme")]).2 rfl
      "Backend Engineer" "Acme" rfl rfl⟩

/-- C10: a record whose `job_id` key is present with a null value gets the
null value itself as identifier (in particular not any string, so not the
`title-company` fallback); the fallback string is produced only when the
`job_id` key is entirely absent. -/
theorem job_id_null_uses_null (kvs : List (String × JVal)) :
    (pyDictGet kvs "job_id" = some .jnull →
      computeJobId kvs = .jnull ∧ ∀ s, computeJobId kvs ≠ .jstr s) ∧
    (pyDictGet kvs "job_id" = none →
      computeJobId kvs =
        .jstr (pyStrOpt (pyDictGet kvs "title") ++ "-" ++
          pyStrOpt (pyDictGet kvs "company_name"))) := by
  constructor
  · intro hnull
    have h : computeJobId kvs = .jnull := by simp [computeJobId, hnull]
    exact ⟨h, fun s hs => by rw [h] at hs; cases hs⟩
  · intro hnone
    simp [computeJobId, hnone]

/-- C10 witness: a record carrying `job_id: null` together with title `"T"`
and company `"C"` gets the null identifier, not the string `"T-C"`. -/
theorem job_id_null_uses_null_witness :
    pyDictGet [("job_id", JVal.jnull), ("title", JVal.jstr "T"),
      ("company_name", JVal.jstr "C")] "job_id" = some .jnull ∧
    computeJobId [("job_id", JVal.jnull), ("title", JVal.jstr "T"),
      ("company_name", JVal.jstr "C")] = .jnull ∧
    computeJobId [("job_id", JVal.jnull), ("title", JVal.jstr "T"),
      ("company_name", JVal.jstr "C")] ≠ .jstr "T-C" :=
  ⟨rfl,
    ((job_id_null_uses_null [("job_id", JVal.jnull), ("title", JVal.jstr "T"),
      ("company_name", JVal.jstr "C")]).1 rfl).1,
    ((job_id_null_uses_null [("job_id", JVal.jnull), ("title", JVal.jstr "T"),
      ("company_name", JVal.jstr "C")]).1 rfl).2 "T-C"⟩

/-- C8: the JSON payload serialized for the LLM is an array holding at most
the first 50 of the filtered listings — its length is `min 50 n` and the
input list is that sample followed by the remaining listings, so order is
preserved. -/
theorem enrich_payload_first_fifty (jobs : List JVal) :
    ∃ sample, jobs_json jobs = .jarr sample ∧
      sample.length ≤ 50 ∧
      (∃ rest, jobs = sample ++ rest) ∧
      sample.length = min 50 jobs.length := by
  refine ⟨jobs.take 50, rfl, ?_, ⟨jobs.drop 50, (List.take_append_drop 50 jobs).symm⟩, ?_⟩
  · simp
  · exact List.length_take 50 jobs

theorem exceptBindOk {ε α β : Type} (a : α) (f : α → Except ε β) :
    (Except.ok a >>= f) = f a := rfl

theorem exceptBindError {ε α β : Type} (e : ε) (f : α → Except ε β) :
    ((Except.error e : Except ε α) >>= f) = Except.error e := rfl

theorem fetchLoop_skip (seen : List PyScalar) (rs1 rs2 : List QueryResponse)
    (kvs : List (String × JVal)) (hk : pyDictGet kvs "jobs_results" = none) :
    fetchLoop seen (rs1 ++ .jsonValue (.jobj kvs) :: rs2) =
      fetchLoop seen (rs1 ++ rs2) := by
  induction rs1 with
  | nil =>
    simp only [List.nil_append, fetchLoop, fetch_jobs, hk, Option.getD_none,
      exceptBindOk]
    have h1 : pyIterE (.jarr []) = .ok [] := rfl
    have h2 : filterNew seen [] = .ok [] := rfl
    rw [h1, exceptBindOk, h2, exceptBindOk]
    cases ht : fetchLoop seen rs2 with
    | error e => rw [exceptBindError]
    | ok tail => rw [exceptBindOk, List.nil_append]
  | cons r rs1 ih =>
    simp only [List.cons_append, fetchLoop, List.append_eq, ih]

/-- C7 counterexample: an exception during a query's HTTP request or JSON
parsing propagates out of `fetch_jobs` and aborts the whole run — the
remaining queries are not fetched and their listings are lost, contradicting
the claim that every fetch failure is local and the run continues. -/
theorem fetch_error_aborts_run :
    fetch_all_jobs .absent
      [.httpError,
       .jsonValue (.jobj [("jobs_results",
         .jarr [.jobj [("job_id", .jstr "J1")]])])] = .error .exn ∧
    fetch_all_jobs .absent
      [.jsonValue (.jobj [("jobs_results",
        .jarr [.jobj [("job_id", .jstr "J1")]])])] =
      .ok [.jobj [("job_id", .jstr "J1")]] :=
  ⟨rfl, rfl⟩

/-- C7 amended: a query whose fetch yields a parsed JSON-object response with
no `jobs_results` field (the API's error/no-result shape) contributes zero
listings and the run continues — the run's result is identical to the run
without that query; but a query whose HTTP request or JSON parsing raises an
exception aborts the whole run (see the counterexample). -/
theorem no_results_query_contributes_nothing (fc : FileContent)
    (rs1 rs2 : List QueryResponse) (kvs : List (String × JVal))
    (hk : pyDictGet kvs "jobs_results" = none) :
    fetch_all_jobs fc (rs1 ++ .jsonValue (.jobj kvs) :: rs2) =
      fetch_all_jobs fc (rs1 ++ rs2) := by
  cases hload : load_sent_jobs fc with
  | error e => simp only [fetch_all_jobs, hload, exceptBindError]
  | ok seen =>
    simp only [fetch_all_jobs, hload, exceptBindOk]
    exact fetchLoop_skip seen rs1 rs2 kvs hk

/-- C7 amended witness: a response carrying only an error field contributes
nothing; the run's output with it equals the run's output without it. -/
theorem no_results_query_contributes_nothing_witness :
    pyDictGet [("error", JVal.jstr "no results")] "jobs_results" = none ∧
    fetch_all_jobs .absent
      [.jsonValue (.jobj [("error", JVal.jstr "no results")]),
       .jsonValue (.jobj [("jobs_results",
         .jarr [.jobj [("job_id", .jstr "J2")]])])] =
      fetch_all_jobs .absent
        [.jsonValue (.jobj [("jobs_results",
          .jarr [.jobj [("job_id", .jstr "J2")]])])] ∧
    fetch_all_jobs .absent
      [.jsonValue (.jobj [("jobs_results",
        .jarr [.jobj [("job_id", .jstr "J2")]])])] =
      .ok [.jobj [("job_id", .jstr "J2")]] :=
  ⟨rfl,
    no_results_query_contributes_nothing .absent []
      [.jsonValue (.jobj [("jobs_results",
        .jarr [.jobj [("job_id", .jstr "J2")]])])]
      [("error", JVal.jstr "no results")] rfl,
    rfl⟩

/-- Statement-side predicate: `j` is one of the records returned by some
query of the run, i.e. an element of the iterated `jobs_results` of that
query's response. -/
def returnedBy (rs : List QueryResponse) (j : JVal) : Prop :=
  ∃ r ∈ rs, ∃ v, fetch_jobs r = .ok v ∧ ∃ elems, pyIterE v = .ok elems ∧ j ∈ elems

/-- Statement-side predicate: `j` is a record whose computed identifier is a
hashable value absent from the seen set `seen`. -/
def unseenListing (seen : List PyScalar) (j : JVal) : Prop :=
  ∃ kvs, j = .jobj kvs ∧
    ∃ sc, toScalar (computeJobId kvs) = some sc ∧ sc ∉ seen

theorem filterNew_ok_mem {seen : List PyScalar} :
    ∀ {elems news : List JVal}, filterNew seen elems = .ok news →
      ∀ j, j ∈ news ↔ j ∈ elems ∧ unseenListing seen j := by
  intro elems
  induction elems with
  | nil =>
    intro news h j
    simp only [filterNew] at h
    cases h
    simp
  | cons job rest ih =>
    intro news h j
    cases job with
    | jobj kvs =>
      simp only [filterNew] at h
      cases hts : toScalar (computeJobId kvs) with
      | none => simp only [hts] at h; exact Except.noConfusion h
      | some sc =>
        simp only [hts] at h
        cases hrest : filterNew seen rest with
        | error e => simp only [hrest, exceptBindError] at h; exact Except.noConfusion h
        | ok tail =>
          simp only [hrest, exceptBindOk] at h
          by_cases hseen : sc ∈ seen
          · rw [if_pos hseen] at h
            cases h
            rw [ih hrest j]
            constructor
            · rintro ⟨hjr, hU⟩
              exact ⟨List.mem_cons_of_mem _ hjr, hU⟩
            · rintro ⟨hjc, hU⟩
              rcases List.mem_cons.mp hjc with hje | hjr
              · exfalso
                obtain ⟨kvs', hj, sc', hts', hns⟩ := hU
                rw [hje] at hj
                cases hj
                rw [hts] at hts'
                cases hts'
                exact hns hseen
              · exact ⟨hjr, hU⟩
          · rw [if_neg hseen] at h
            cases h
            simp only [List.mem_cons]
            constructor
            · rintro (hje | hjt)
              · exact ⟨Or.inl hje, kvs, hje, sc, hts, hseen⟩
              · obtain ⟨hjr, hU⟩ := (ih hrest j).mp hjt
                exact ⟨Or.inr hjr, hU⟩
            · rintro ⟨hje | hjr, hU⟩
              · exact Or.inl hje
              · exact Or.inr ((ih hrest j).mpr ⟨hjr, hU⟩)
    | jnull => simp only [filterNew] at h; exact Except.noConfusion h
    | jbool b => simp only [filterNew] at h; exact Except.noConfusion h
    | jnum n => simp only [filterNew] at h; exact Except.noConfusion h
    | jstr s => simp only [filterNew] at h; exact Except.noConfusion h
    | jarr xs => simp only [filterNew] at h; exact Except.noConfusion h

theorem fetchLoop_ok_mem {seen : List PyScalar} :
    ∀ {rs : List QueryResponse} {out : List JVal}, fetchLoop seen rs = .ok out →
      ∀ j, j ∈ out ↔ returnedBy rs j ∧ unseenListing seen j := by
  intro rs
  induction rs with
  | nil =>
    intro out h j
    simp only [fetchLoop] at h
    cases h
    simp [returnedBy]
  | cons r rest ih =>
    intro out h j
    simp only [fetchLoop] at h
    cases hf : fetch_jobs r with
    | error e => simp only [hf, exceptBindError] at h; exact Except.noConfusion h
    | ok v =>
      simp only [hf, exceptBindOk] at h
      cases hi : pyIterE v with
      | error e => simp only [hi, exceptBindError] at h; exact Except.noConfusion h
      | ok elems =>
        simp only [hi, exceptBindOk] at h
        cases hn : filterNew seen elems with
        | error e => simp only [hn, exceptBindError] at h; exact Except.noConfusion h
        | ok news =>
          simp only [hn, exceptBindOk] at h
          cases ht : fetchLoop seen rest with
          | error e => simp only [ht, exceptBindError] at h; exact Except.noConfusion h
          | ok tail =>
            simp only [ht, exceptBindOk] at h
            cases h
            simp only [List.mem_append]
            rw [filterNew_ok_mem hn j, ih ht j]
            constructor
            · rintro (⟨hje, hU⟩ | ⟨hR, hU⟩)
              · exact ⟨⟨r, List.mem_cons_self r rest, v, hf, elems, hi, hje⟩, hU⟩
              · obtain ⟨r', hr', hrest⟩ := hR
                exact ⟨⟨r', List.mem_cons_of_mem _ hr', hrest⟩, hU⟩
            · rintro ⟨⟨r', hr', v', hf', elems', hi', hje'⟩, hU⟩
              rcases List.mem_cons.mp hr' with rfl | hr'rest
              · rw [hf] at hf'
                cases hf'
                rw [hi] at hi'
                cases hi'
                exact Or.inl ⟨hje', hU⟩
              · exact Or.inr ⟨⟨r', hr'rest, v', hf', elems', hi', hje'⟩, hU⟩

/-- C3: a record returned by any query of the run is in the aggregator's
output if and only if its computed identifier is absent from the seen set
loaded at the start of the run; conversely every output record is such a
returned record, so a record whose identifier is in the loaded set is
excluded no matter which query returned it. -/
theorem aggregator_filters_seen {fc : FileContent} {rs : List QueryResponse}
    {seen : List PyScalar} {out : List JVal}
    (h1 : load_sent_jobs fc = .ok seen)
    (h2 : fetch_all_jobs fc rs = .ok out) :
    ∀ j, j ∈ out ↔ returnedBy rs j ∧ unseenListing seen j := by
  simp only [fetch_all_jobs, h1, exceptBindOk] at h2
  exact fetchLoop_ok_mem h2

/-- C3 witness: with `"S1"` already seen, a query returning one record with
identifier `"S1"` and one with identifier `"N1"` contributes exactly the
`"N1"` record, and the membership equivalence holds for it. -/
theorem aggregator_filters_seen_witness :
    load_sent_jobs (.parsed (.jarr [.jstr "S1"])) = .ok [.pstr "S1"] ∧
    fetch_all_jobs (.parsed (.jarr [.jstr "S1"]))
      [.jsonValue (.jobj [("jobs_results",
        .jarr [.jobj [("job_id", .jstr "S1")],
               .jobj [("job_id", .jstr "N1")]])])] =
      .ok [.jobj [("job_id", .jstr "N1")]] ∧
    (JVal.jobj [("job_id", .jstr "N1")] ∈ [JVal.jobj [("job_id", .jstr "N1")]] ↔
      returnedBy
        [.jsonValue (.jobj [("jobs_results",
          .jarr [.jobj [("job_id", .jstr "S1")],
                 .jobj [("job_id", .jstr "N1")]])])]
        (.jobj [("job_id", .jstr "N1")]) ∧
      unseenListing [.pstr "S1"] (.jobj [("job_id", .jstr "N1")])) :=
  ⟨rfl, rfl,
    @aggregator_filters_seen (.parsed (.jarr [.jstr "S1"]))
      [.jsonValue (.jobj [("jobs_results",
        .jarr [.jobj [("job_id", .jstr "S1")],
               .jobj [("job_id", .jstr "N1")]])])]
      [.pstr "S1"] [.jobj [("job_id", .jstr "N1")]] rfl rfl
      (.jobj [("job_id", .jstr "N1")])⟩

/-- C2: in every run in which the notification step reports failure
(`send_email` returns `False`), the workflow does not call `save_sent_jobs`,
so the persisted store is exactly what it was before the run. -/
theorem email_failure_leaves_store {w : World} {p : World × List Event}
    (hfail : ∀ html, send_email w.sendOutcome html = false)
    (hrun : main w = .ok p) :
    p.1.store = w.store := by
  simp only [main] at hrun
  cases hjobs : fetch_all_jobs w.store w.responses with
  | error e =>
    simp only [hjobs, exceptBindError] at hrun
    exact Except.noConfusion hrun
  | ok jobs =>
    simp only [hjobs, exceptBindOk] at hrun
    by_cases h0 : jobs.length = 0
    · rw [if_pos h0] at hrun
      cases hrun
      rfl
    · rw [if_neg h0] at hrun
      cases henr : enrich_with_llm w.geminiKey w.promptFile w.resumes w.llm jobs with
      | error e =>
        simp only [henr, exceptBindError] at hrun
        exact Except.noConfusion hrun
      | ok html =>
        simp only [henr, exceptBindOk, hfail html, Bool.false_eq_true,
          if_false] at hrun
        cases hrun
        rfl

/-- C2 witness: one new job, enrichment succeeds, the email send raises (so
`send_email` returns `False`): the run completes and the store is unchanged. -/
theorem email_failure_leaves_store_witness :
    send_email (Except.error ()) "x" = false ∧
    main ⟨.absent,
      [.jsonValue (.jobj [("jobs_results",
        .jarr [.jobj [("job_id", .jstr "J1")]])])],
      some "k", some "base", "resume", fun _ => .ok "html", .error ()⟩ =
      .ok (⟨.absent,
        [.jsonValue (.jobj [("jobs_results",
          .jarr [.jobj [("job_id", .jstr "J1")]])])],
        some "k", some "base", "resume", fun _ => .ok "html", .error ()⟩,
        [.enriched, .emailed]) ∧
    ((⟨.absent,
      [.jsonValue (.jobj [("jobs_results",
        .jarr [.jobj [("job_id", .jstr "J1")]])])],
      some "k", some "base", "resume", fun _ => .ok "html", .error ()⟩,
      ([.enriched, .emailed] : List Event)) :
        World × List Event).1.store =
      (⟨.absent,
        [.jsonValue (.jobj [("jobs_results",
          .jarr [.jobj [("job_id", .jstr "J1")]])])],
        some "k", some "base", "resume", fun _ => .ok "html", .error ()⟩ :
          World).store :=
  ⟨rfl, rfl, email_failure_leaves_store (fun _ => rfl) rfl⟩

/-- C5: if the aggregator's filtered output is empty, the run short-circuits:
`main` returns with the environment unchanged (in particular the store file
is byte-identical) and an empty event list — neither enrichment nor
notification (nor persistence) is invoked. -/
theorem empty_run_short_circuits {w : World}
    (h : fetch_all_jobs w.store w.responses = .ok []) :
    main w = .ok (w, []) := by
  simp [main, h, exceptBindOk]

/-- C5 witness: the only returned record is already seen, so the filtered
output is empty and the run exits with the store untouched and no events. -/
theorem empty_run_short_circuits_witness :
    fetch_all_jobs (.parsed (.jarr [.jstr "S1"]))
      [.jsonValue (.jobj [("jobs_results",
        .jarr [.jobj [("job_id", .jstr "S1")]])])] = .ok [] ∧
    main ⟨.parsed (.jarr [.jstr "S1"]),
      [.jsonValue (.jobj [("jobs_results",
        .jarr [.jobj [("job_id", .jstr "S1")]])])],
      some "k", some "base", "resume", fun _ => .ok "html", .ok ()⟩ =
      .ok (⟨.parsed (.jarr [.jstr "S1"]),
        [.jsonValue (.jobj [("jobs_results",
          .jarr [.jobj [("job_id", .jstr "S1")]])])],
        some "k", some "base", "resume", fun _ => .ok "html", .ok ()⟩, []) :=
  ⟨rfl, empty_run_short_circuits rfl⟩

end JobMailer
